import Mathlib

/-!
# Verification development for the DontSee verification scripts

The repository consists of nine standalone Python scripts under
`verification/` that drive a headless browser (via Playwright) against a
locally served web application, assert simple UI conditions, and capture
screenshots.

This file embeds each script shallowly.  Every Playwright call the script
makes is modelled as an `Event`; running a script yields the list of events
it performed together with the exception, if any, that escaped the script.
Browser calls are fallible: their outcome is injected through an oracle
`Nat → Bool` that gives the result of the n-th fallible call of the run
(`true` = the call succeeds, `false` = the call raises).  A failed call
emits no event and aborts the straight-line block it occurs in, exactly as
a raised Python exception aborts the enclosing suite.

Python control flow is modelled structurally:
* a `try ... except Exception as e: print(...) finally: browser.close()`
  wrapper (present in five of the nine scripts) swallows the error, prints
  it, and always closes the browser (`tryScript`);
* scripts with no handler let the error escape (`plainScript`), skipping
  every statement after the failing one, including their `browser.close()`;
* the `with sync_playwright() as p:` block that encloses every script is a
  Python context manager: its exit runs on every path and stops the
  Playwright driver, which closes every browser launched from it.  This is
  modelled by the final `Event.playwrightStop` appended on all paths.
-/

/-! ## Data model and embedded scripts -/

/-- Locators are lazy element queries; constructing one performs no browser
call, so only the calls made on a locator appear as events. -/
inductive Locator where
  | byRole (role : String) (nm : String)
  | byText (t : String)
  | byLabel (l : String)
  | byPlaceholder (p : String)
  | bySelector (s : String)
  | child (base : Locator) (sel : String)
  deriving DecidableEq, Repr

/-- One Playwright (or file-system, or console) call made by a script. -/
inductive Event where
  | launch
  | newContext
  | newPage (viewport : Option (Nat × Nat))
  | goto (url : String)
  | expectTitle (title : String)
  | expectVisible (loc : Locator)
  | expectVisibleT (loc : Locator) (timeoutMs : Nat)
  | expectAttached (loc : Locator)
  | expectNotVisible (loc : Locator)
  | expectCount (loc : Locator) (n : Nat)
  | expectFileChooser
  | waitForSelector (sel : String)
  | waitForTimeout (ms : Nat)
  | click (loc : Locator)
  | hover (loc : Locator)
  | setFiles (path : String)
  | writeFile (path : String) (bytes : List Nat)
  | screenshot (path : String)
  | printMsg (msg : String)
  | printErr (failed : Event)
  | browserClose
  | playwrightStop
  deriving DecidableEq, Repr

/-- Which calls can raise.  Page interactions, waits, screenshots and file
writes can fail; console prints, browser/driver teardown and the launch
steps preceding each script body are modelled as infallible. -/
def fallible : Event → Bool
  | .goto _ | .expectTitle _ | .expectVisible _ | .expectVisibleT _ _
  | .expectAttached _ | .expectNotVisible _ | .expectCount _ _
  | .expectFileChooser | .waitForSelector _ | .waitForTimeout _
  | .click _ | .hover _ | .setFiles _ | .writeFile _ _ | .screenshot _ => true
  | _ => false

/-- Result of running a straight-line block: the events that were performed,
the next oracle index, and the event whose call raised, if any. -/
structure RunResult where
  events : List Event
  next : Nat
  err : Option Event
  deriving DecidableEq, Repr

/-- Run a straight-line suite of calls.  The oracle decides each fallible
call; the first failure aborts the rest of the suite, as a raised exception
aborts a Python suite. -/
def runBlock (oracle : Nat → Bool) : Nat → List Event → RunResult
  | n, [] => ⟨[], n, none⟩
  | n, s :: rest =>
    if fallible s then
      if oracle n then
        ⟨s :: (runBlock oracle (n + 1) rest).events,
         (runBlock oracle (n + 1) rest).next,
         (runBlock oracle (n + 1) rest).err⟩
      else ⟨[], n + 1, some s⟩
    else
      ⟨s :: (runBlock oracle n rest).events,
       (runBlock oracle n rest).next,
       (runBlock oracle n rest).err⟩

/-- Result of one whole script process: the events performed and the
exception, if any, that escaped the script (and hence the process). -/
structure Outcome where
  events : List Event
  err : Option Event
  deriving DecidableEq, Repr

/-- Events of the `except Exception as e: print(f"Error: ...")` handler. -/
def handlerEvents : Option Event → List Event
  | some f => [Event.printErr f]
  | none => []

/-- Shape of the five scripts whose body sits inside
`try ... except Exception as e: print(...) finally: browser.close()`,
all under `with sync_playwright()`: the error is printed and swallowed,
the browser is always closed, the driver is always stopped. -/
def tryScript (pre body : List Event) (oracle : Nat → Bool) : Outcome :=
  ⟨pre ++ (runBlock oracle 0 body).events
      ++ handlerEvents (runBlock oracle 0 body).err
      ++ [Event.browserClose, Event.playwrightStop], none⟩

/-- Shape of the four scripts with no exception handler: the body (whose
last statement is `browser.close()`) runs until its first failure, the
`with sync_playwright()` exit still stops the driver, and the error
escapes the script. -/
def plainScript (pre body : List Event) (oracle : Nat → Bool) : Outcome :=
  ⟨pre ++ (runBlock oracle 0 body).events ++ [Event.playwrightStop],
   (runBlock oracle 0 body).err⟩

/-- Body of `verify.py` / `verify_app` (inside its try suite). -/
def verify_app_body : List Event :=
  [ .goto "http://localhost:4173",
    .expectTitle "DontSee | Secure Steganography",
    .expectVisible (.byRole "heading" "DontSee"),
    .screenshot "verification/app_screenshot.png",
    .printMsg "Screenshot taken successfully" ]

/-- Whole run of `verify.py`. -/
def verify_app_main (oracle : Nat → Bool) : Outcome :=
  tryScript [.launch, .newPage none] verify_app_body oracle

/-- Body of `verify_changes.py` / `verify_changes`; no handler, the final
statement is `browser.close()`. -/
def verify_changes_body : List Event :=
  [ .goto "http://localhost:3000",
    .waitForSelector "main",
    .hover (.child (.byText "Upload Image") "xpath=.."),
    .waitForTimeout 500,
    .screenshot "verification/full_page.png",
    .browserClose ]

/-- Whole run of `verify_changes.py`. -/
def verify_changes_main (oracle : Nat → Bool) : Outcome :=
  plainScript [.launch, .newPage none] verify_changes_body oracle

/-- Body of `verify_final.py` / `verify_fixes`; no handler. -/
def verify_final_body : List Event :=
  [ .goto "http://localhost:3000",
    .waitForSelector "main",
    .waitForSelector "text=Steganography",
    .waitForTimeout 2000,
    .screenshot "verification/final_fix.png",
    .browserClose ]

/-- Whole run of `verify_final.py`. -/
def verify_final_main (oracle : Nat → Bool) : Outcome :=
  plainScript [.launch, .newPage none] verify_final_body oracle

/-- Body of `verify_load.py` / `verify_app_load` (inside the try suite of
its `__main__` block). -/
def verify_load_body : List Event :=
  [ .printMsg "Navigating to app...",
    .goto "http://localhost:3000",
    .printMsg "Waiting for header...",
    .expectVisible (.byRole "heading" "Hide or Reveal Secrets"),
    .printMsg "Checking for Image Preview component (Dropzone)...",
    .expectVisible (.byText "Upload a DontSee image to decrypt"),
    .printMsg "Taking screenshot...",
    .screenshot "verification/app_loaded.png",
    .printMsg "Done." ]

/-- Whole run of `verify_load.py`. -/
def verify_load_main (oracle : Nat → Bool) : Outcome :=
  tryScript [.launch, .newPage none] verify_load_body oracle

/-- Body of `verify_maximize.py` / `run`; no handler.  Note the click on
the Minimize control and the final visibility wait come after the
screenshot. -/
def verify_maximize_body : List Event :=
  [ .goto "http://localhost:3000",
    .expectVisible (.byPlaceholder "Enter secret message here..."),
    .expectAttached (.byLabel "Maximize"),
    .click (.byLabel "Maximize"),
    .expectVisible (.byLabel "Minimize"),
    .expectCount (.byText "0 /") 2,
    .screenshot "/home/jules/verification/zen_mode.png",
    .click (.byLabel "Minimize"),
    .expectNotVisible (.byLabel "Minimize"),
    .browserClose ]

/-- Whole run of `verify_maximize.py`. -/
def verify_maximize_main (oracle : Nat → Bool) : Outcome :=
  plainScript [.launch, .newContext, .newPage none] verify_maximize_body oracle

/-- Body of `verify_redesign.py` / `verify_redesign` (inside its try
suite).  The `page.locator("header").first` line builds a locator that is
never used, so it performs no browser call and emits no event. -/
def verify_redesign_body : List Event :=
  [ .printMsg "Navigating to app...",
    .goto "http://localhost:3000",
    .waitForSelector "main",
    .printMsg "Taking screenshot of initial state...",
    .screenshot "verification/redesign_initial.png",
    .printMsg "Screenshot saved to verification/redesign_initial.png" ]

/-- Whole run of `verify_redesign.py`; its page is created with an explicit
1280 by 800 viewport. -/
def verify_redesign_main (oracle : Nat → Bool) : Outcome :=
  tryScript [.launch, .newPage (some (1280, 800))] verify_redesign_body oracle

/-- Body of `verify_styles.py` / `verify_styling` (inside its try suite). -/
def verify_styles_body : List Event :=
  [ .goto "http://localhost:3000",
    .waitForSelector "body",
    .screenshot "verification/verification.png",
    .printMsg "Screenshot taken successfully" ]

/-- Whole run of `verify_styles.py`. -/
def verify_styles_main (oracle : Nat → Bool) : Outcome :=
  tryScript [.launch, .newPage none] verify_styles_body oracle

/-- Body of `verify_subtitle_modern.py` / `verify_subtitle_and_ui`; no
handler. -/
def verify_subtitle_modern_body : List Event :=
  [ .goto "http://localhost:3000",
    .waitForSelector "main",
    .waitForSelector "text=Steganography",
    .waitForTimeout 2000,
    .screenshot "verification/modern_subtitle.png",
    .browserClose ]

/-- Whole run of `verify_subtitle_modern.py`. -/
def verify_subtitle_modern_main (oracle : Nat → Bool) : Outcome :=
  plainScript [.launch, .newPage none] verify_subtitle_modern_body oracle

/-- The exact bytes of the minimal 1x1 PNG that `reproduce_delay.py`
writes to `test_image.png`. -/
def test_image_png : List Nat :=
  [0x89, 0x50, 0x4E, 0x47, 0x0D, 0x0A, 0x1A, 0x0A,
   0x00, 0x00, 0x00, 0x0D, 0x49, 0x48, 0x44, 0x52,
   0x00, 0x00, 0x00, 0x01, 0x00, 0x00, 0x00, 0x01,
   0x08, 0x06, 0x00, 0x00, 0x00, 0x1F, 0x15, 0xC4, 0x89,
   0x00, 0x00, 0x00, 0x0A, 0x49, 0x44, 0x41, 0x54,
   0x78, 0x9C, 0x63, 0x00, 0x01, 0x00, 0x00, 0x05, 0x00, 0x01,
   0x0D, 0x0A, 0x2D, 0xB4,
   0x00, 0x00, 0x00, 0x00, 0x49, 0x45, 0x4E, 0x44,
   0xAE, 0x42, 0x60, 0x82]

/-- Target of the negative wait in `reproduce_delay.py`. -/
def analyzingLoc : Locator := .byText "Analyzing Image..."

/-- Message printed on the try branch of the Analyzing check. -/
def passMsg : String :=
  "PASS: Analyzing Image... appeared immediately (Unexpected for bug repro)"

/-- Message printed on the except branch of the Analyzing check. -/
def bugMsg : String :=
  "SUCCESS: Analyzing Image... did NOT appear immediately. Bug reproduced."

/-- Outcome of the `expect(...).to_be_visible(timeout=500)` call inside the
try of lines 37-42 of `reproduce_delay.py`: it either returns normally, or
raises the assertion timeout, or raises any other Playwright error (crashed
page, closed browser, ...). -/
inductive ExpectResult where
  | ok
  | timedOut
  | otherExn (msg : String)
  deriving DecidableEq, Repr

/-- Semantics of `expect(loc).to_be_visible(timeout=T)` with no injected
fault, over a visibility timeline sampled in milliseconds: the assertion
succeeds iff the element is visible at some instant within the window
[0, T], and otherwise raises the timeout. -/
def expectVisibleResult (visibleAt : Nat → Bool) (timeoutMs : Nat) : ExpectResult :=
  if (List.range (timeoutMs + 1)).any visibleAt then .ok else .timedOut

/-- Events performed by the branch the script takes after the visibility
check of lines 37-42: the try suite prints the PASS line; the bare except
suite prints the SUCCESS line and captures the screenshot. -/
def analyzingCheckEvents : ExpectResult → List Event
  | .ok => [.printMsg passMsg]
  | _ => [.printMsg bugMsg, .screenshot "verification/bug_reproduced.png"]

/-- Straight-line calls of `verify_scanning_delay` before the negative
wait. -/
def scanningPreSteps : List Event :=
  [ .printMsg "Navigating to app...",
    .goto "http://localhost:3000",
    .printMsg "Mocking file upload...",
    .expectFileChooser,
    .click (.bySelector "input[type=file]"),
    .writeFile "test_image.png" test_image_png,
    .printMsg "Uploading file...",
    .setFiles "test_image.png",
    .printMsg "Checking for IMMEDIATE Analyzing... text..." ]

/-- Run of `verify_scanning_delay`: the preamble, then the negative wait.
If the visibility expectation succeeds (oracle true at its index) the try
branch prints the PASS line; on any raise the bare except prints the
SUCCESS line and takes the screenshot (the screenshot call itself remaining
fallible). -/
def verify_scanning_delay_run (oracle : Nat → Bool) : RunResult :=
  if (runBlock oracle 0 scanningPreSteps).err = none then
    if oracle (runBlock oracle 0 scanningPreSteps).next then
      ⟨(runBlock oracle 0 scanningPreSteps).events
         ++ Event.expectVisibleT analyzingLoc 500 :: analyzingCheckEvents ExpectResult.ok,
       (runBlock oracle 0 scanningPreSteps).next + 1, none⟩
    else
      ⟨(runBlock oracle 0 scanningPreSteps).events
         ++ (runBlock oracle ((runBlock oracle 0 scanningPreSteps).next + 1)
              (analyzingCheckEvents ExpectResult.timedOut)).events,
       (runBlock oracle ((runBlock oracle 0 scanningPreSteps).next + 1)
          (analyzingCheckEvents ExpectResult.timedOut)).next,
       (runBlock oracle ((runBlock oracle 0 scanningPreSteps).next + 1)
          (analyzingCheckEvents ExpectResult.timedOut)).err⟩
  else runBlock oracle 0 scanningPreSteps

/-- Whole run of `reproduce_delay.py`: its `__main__` block launches the
browser, runs `verify_scanning_delay` inside
`try ... except Exception as e: print(...) finally: browser.close()`. -/
def reproduce_delay_main (oracle : Nat → Bool) : Outcome :=
  ⟨[Event.launch, Event.newPage none]
     ++ (verify_scanning_delay_run oracle).events
     ++ handlerEvents (verify_scanning_delay_run oracle).err
     ++ [Event.browserClose, Event.playwrightStop], none⟩

/-- The nine scripts of the repository. -/
inductive ScriptId where
  | verifyApp
  | verifyChanges
  | verifyFinal
  | verifyLoad
  | verifyMaximize
  | verifyRedesign
  | verifyStyles
  | verifySubtitleModern
  | reproduceDelay
  deriving DecidableEq, Repr

/-- Whole-process run of each script. -/
def mainOf : ScriptId → (Nat → Bool) → Outcome
  | .verifyApp => verify_app_main
  | .verifyChanges => verify_changes_main
  | .verifyFinal => verify_final_main
  | .verifyLoad => verify_load_main
  | .verifyMaximize => verify_maximize_main
  | .verifyRedesign => verify_redesign_main
  | .verifyStyles => verify_styles_main
  | .verifySubtitleModern => verify_subtitle_modern_main
  | .reproduceDelay => reproduce_delay_main

/-- Oracle under which every browser call succeeds. -/
def allTrue : Nat → Bool := fun _ => true

/-- Oracle under which every browser call raises. -/
def allFalse : Nat → Bool := fun _ => false

/-- Oracle for the bug-reproduced path of `reproduce_delay.py`: every call
succeeds except the visibility expectation of the negative wait (index 5). -/
def bugOracle : Nat → Bool := fun n => !(n == 5)

/-- A script run counts the browser session as closed if the script made the
explicit `browser.close()` call, or the `with sync_playwright()` scope was
exited: Playwright's context-manager exit stops the driver, which closes
every browser launched from it. -/
def sessionClosed (o : Outcome) : Prop :=
  Event.browserClose ∈ o.events ∨ Event.playwrightStop ∈ o.events

/-- Wait conditions and fixed pauses: Playwright expect assertions,
selector waits, the file-chooser wait and timed pauses. -/
def isWaitEv : Event → Bool
  | .expectTitle _ | .expectVisible _ | .expectVisibleT _ _
  | .expectAttached _ | .expectNotVisible _ | .expectCount _ _
  | .expectFileChooser | .waitForSelector _ | .waitForTimeout _ => true
  | _ => false

/-- Simulated user gestures: click, hover, file selection. -/
def isActionEv : Event → Bool
  | .click _ | .hover _ | .setFiles _ => true
  | _ => false

/-- Screenshot captures. -/
def isScreenshotEv : Event → Bool
  | .screenshot _ => true
  | _ => false

/-- Browser-page operations (navigation, waits, actions, screenshots), as
opposed to launch steps, local file writes, console prints and teardown. -/
def isPageOp : Event → Bool
  | .launch | .newContext | .newPage _ | .writeFile _ _
  | .printMsg _ | .printErr _ | .browserClose | .playwrightStop => false
  | _ => true

/-- Whether the first browser-page operation of a trace, if any, is the
navigation. -/
def navFirst (tr : List Event) : Bool :=
  match tr.filter isPageOp with
  | [] => true
  | Event.goto _ :: _ => true
  | _ => false

/-- The wait conditions and actions a trace performs strictly after its
first screenshot capture. -/
def opsAfterScreenshot (tr : List Event) : List Event :=
  ((tr.dropWhile (fun e => !(isScreenshotEv e))).drop 1).filter
    (fun e => isWaitEv e || isActionEv e)

/-- The PNG signature, byte for byte as the spec states it:
89 50 4E 47 0D 0A 1A 0A. -/
def pngSignatureSpec : List Nat :=
  [0x89, 0x50, 0x4E, 0x47, 0x0D, 0x0A, 0x1A, 0x0A]

/-- The file, if any, that an event writes: the synthetic PNG written with
`open(..., "wb")` and the screenshots.  Both truncate and overwrite any
existing file at the path. -/
def writesOf : Event → Option String
  | .writeFile p _ => some p
  | .screenshot p => some p
  | _ => none

/-- Apply one event to the set of artifact files on disk, represented as a
duplicate-free list of paths: a write creates the file if absent, and
otherwise overwrites it in place, leaving the set unchanged. -/
def applyEvent (fs : List String) (e : Event) : List String :=
  match writesOf e with
  | some p => if p ∈ fs then fs else fs ++ [p]
  | none => fs

/-- The files on disk after a trace of events. -/
def applyTrace (fs : List String) (tr : List Event) : List String :=
  tr.foldl applyEvent fs

/-- Artifact files on disk after n successive runs of a script, all under
the same oracle, starting from an empty artifact directory. -/
def filesAfterRuns (id : ScriptId) (oracle : Nat → Bool) : Nat → List String
  | 0 => []
  | n + 1 => applyTrace (filesAfterRuns id oracle n) (mainOf id oracle).events

/-- Modelling the OS inputs of a run: the scripts read neither argv nor any
environment variable nor a configuration file (no reference to sys.argv,
argparse, os.environ or any config file appears anywhere in the source), so
a run is a function of the script and the browser behaviour alone.  The OS
inputs are parameters here only so that their irrelevance can be stated. -/
def runScriptOS (id : ScriptId) (_argv : List String)
    (_env : String → Option String) (oracle : Nat → Bool) : Outcome :=
  mainOf id oracle

/-- The timeout a script passes explicitly, if any. -/
def explicitTimeoutOf : Event → Option Nat
  | .expectVisibleT _ t => some t
  | .waitForTimeout t => some t
  | _ => none

/-- The millisecond bound on each blocking wait: the explicit timeout when
the script passes one, and otherwise the Playwright default, 5000 ms for
expect assertions and 30000 ms for `page.wait_for_selector` and
`page.expect_file_chooser`; `page.wait_for_timeout` blocks for exactly its
argument. -/
def effectiveTimeout : Event → Option Nat
  | .expectTitle _ => some 5000
  | .expectVisible _ => some 5000
  | .expectVisibleT _ t => some t
  | .expectAttached _ => some 5000
  | .expectNotVisible _ => some 5000
  | .expectCount _ _ => some 5000
  | .expectFileChooser => some 30000
  | .waitForSelector _ => some 30000
  | .waitForTimeout t => some t
  | _ => none

/-- An event respects the wait discipline when, if it is a wait, it has a
bounded timeout, and any explicitly passed timeout lies between 500 and
2000 ms inclusive. -/
def waitOk (e : Event) : Bool :=
  (!(isWaitEv e) || (effectiveTimeout e).isSome) &&
  (match explicitTimeoutOf e with
   | some t => decide (500 ≤ t) && decide (t ≤ 2000)
   | none => true)

/-! ## Sanity traces -/

/-- The concrete all-success run of `verify.py`. -/
theorem verify_app_success_trace :
    (verify_app_main allTrue).events =
      [Event.launch, Event.newPage none,
       Event.goto "http://localhost:4173",
       Event.expectTitle "DontSee | Secure Steganography",
       Event.expectVisible (Locator.byRole "heading" "DontSee"),
       Event.screenshot "verification/app_screenshot.png",
       Event.printMsg "Screenshot taken successfully",
       Event.browserClose, Event.playwrightStop] := by decide

/-- A failing navigation escapes the handler-less `verify_subtitle_modern.py`. -/
theorem verify_subtitle_modern_failing_nav :
    (verify_subtitle_modern_main allFalse).err =
      some (Event.goto "http://localhost:3000") := by decide

/-- The concrete bug-reproduced run of `reproduce_delay.py`. -/
theorem reproduce_delay_bug_trace :
    (reproduce_delay_main bugOracle).events =
      [Event.launch, Event.newPage none,
       Event.printMsg "Navigating to app...",
       Event.goto "http://localhost:3000",
       Event.printMsg "Mocking file upload...",
       Event.expectFileChooser,
       Event.click (Locator.bySelector "input[type=file]"),
       Event.writeFile "test_image.png" test_image_png,
       Event.printMsg "Uploading file...",
       Event.setFiles "test_image.png",
       Event.printMsg "Checking for IMMEDIATE Analyzing... text...",
       Event.printMsg bugMsg,
       Event.screenshot "verification/bug_reproduced.png",
       Event.browserClose, Event.playwrightStop] := by decide

/-! ## Lemmas and claims -/

/-- Every event a block run performs is one of the block's calls. -/
theorem runBlock_mem {oracle : Nat → Bool} :
    ∀ {steps : List Event} {n : Nat} {e : Event},
      e ∈ (runBlock oracle n steps).events → e ∈ steps := by
  intro steps
  induction steps with
  | nil =>
      intro n e h
      simp [runBlock] at h
  | cons s rest ih =>
      intro n e h
      simp only [runBlock] at h
      split at h
      · split at h
        · rcases List.mem_cons.mp h with h | h
          · exact h ▸ List.mem_cons_self s rest
          · exact List.mem_cons_of_mem s (ih h)
        · simp at h
      · rcases List.mem_cons.mp h with h | h
        · exact h ▸ List.mem_cons_self s rest
        · exact List.mem_cons_of_mem s (ih h)

/-- The handler suite only ever prints the caught error. -/
theorem mem_handlerEvents {oe : Option Event} {e : Event}
    (h : e ∈ handlerEvents oe) : ∃ f, e = Event.printErr f := by
  cases oe with
  | none => simp [handlerEvents] at h
  | some f =>
      simp [handlerEvents] at h
      exact ⟨f, h⟩

/-- Case analysis on the events of a try/except/finally script. -/
theorem mem_tryScript {pre body : List Event} {oracle : Nat → Bool} {e : Event}
    (h : e ∈ (tryScript pre body oracle).events) :
    e ∈ pre ∨ e ∈ body ∨ (∃ f, e = Event.printErr f) ∨
      e = Event.browserClose ∨ e = Event.playwrightStop := by
  have h' : e ∈ pre ++ (runBlock oracle 0 body).events
      ++ handlerEvents (runBlock oracle 0 body).err
      ++ [Event.browserClose, Event.playwrightStop] := h
  rcases List.mem_append.mp h' with h1 | h1
  · rcases List.mem_append.mp h1 with h2 | h2
    · rcases List.mem_append.mp h2 with h3 | h3
      · exact Or.inl h3
      · exact Or.inr (Or.inl (runBlock_mem h3))
    · exact Or.inr (Or.inr (Or.inl (mem_handlerEvents h2)))
  · rcases List.mem_cons.mp h1 with h2 | h2
    · exact Or.inr (Or.inr (Or.inr (Or.inl h2)))
    · rcases List.mem_cons.mp h2 with h3 | h3
      · exact Or.inr (Or.inr (Or.inr (Or.inr h3)))
      · exact absurd h3 (List.not_mem_nil e)

/-- Case analysis on the events of a handler-less script. -/
theorem mem_plainScript {pre body : List Event} {oracle : Nat → Bool} {e : Event}
    (h : e ∈ (plainScript pre body oracle).events) :
    e ∈ pre ∨ e ∈ body ∨ e = Event.playwrightStop := by
  have h' : e ∈ pre ++ (runBlock oracle 0 body).events
      ++ [Event.playwrightStop] := h
  rcases List.mem_append.mp h' with h1 | h1
  · rcases List.mem_append.mp h1 with h2 | h2
    · exact Or.inl h2
    · exact Or.inr (Or.inl (runBlock_mem h2))
  · rcases List.mem_cons.mp h1 with h2 | h2
    · exact Or.inr (Or.inr h2)
    · exact absurd h2 (List.not_mem_nil e)

/-- Case analysis on the events of `reproduce_delay.py`. -/
theorem mem_reproduce_delay {oracle : Nat → Bool} {e : Event}
    (h : e ∈ (reproduce_delay_main oracle).events) :
    e ∈ [Event.launch, Event.newPage none] ∨ e ∈ scanningPreSteps ∨
      e = Event.expectVisibleT analyzingLoc 500 ∨
      e ∈ analyzingCheckEvents ExpectResult.ok ∨
      e ∈ analyzingCheckEvents ExpectResult.timedOut ∨
      (∃ f, e = Event.printErr f) ∨
      e = Event.browserClose ∨ e = Event.playwrightStop := by
  have h' : e ∈ [Event.launch, Event.newPage none]
      ++ (verify_scanning_delay_run oracle).events
      ++ handlerEvents (verify_scanning_delay_run oracle).err
      ++ [Event.browserClose, Event.playwrightStop] := h
  rcases List.mem_append.mp h' with h1 | h1
  · rcases List.mem_append.mp h1 with h2 | h2
    · rcases List.mem_append.mp h2 with h3 | h3
      · exact Or.inl h3
      · right
        have h4 := h3
        simp only [verify_scanning_delay_run] at h4
        split at h4
        · split at h4
          · rcases List.mem_append.mp h4 with h5 | h5
            · exact Or.inl (runBlock_mem h5)
            · rcases List.mem_cons.mp h5 with h6 | h6
              · exact Or.inr (Or.inl h6)
              · exact Or.inr (Or.inr (Or.inl h6))
          · rcases List.mem_append.mp h4 with h5 | h5
            · exact Or.inl (runBlock_mem h5)
            · exact Or.inr (Or.inr (Or.inr (Or.inl (runBlock_mem h5))))
        · exact Or.inl (runBlock_mem h4)
    · exact Or.inr (Or.inr (Or.inr (Or.inr (Or.inr (Or.inl (mem_handlerEvents h2))))))
  · rcases List.mem_cons.mp h1 with h2 | h2
    · exact Or.inr (Or.inr (Or.inr (Or.inr (Or.inr (Or.inr (Or.inl h2))))))
    · rcases List.mem_cons.mp h2 with h3 | h3
      · exact Or.inr (Or.inr (Or.inr (Or.inr (Or.inr (Or.inr (Or.inr h3))))))
      · exact absurd h3 (List.not_mem_nil e)

/-- A try/except/finally script closes the browser on every path. -/
theorem tryScript_close (pre body : List Event) (oracle : Nat → Bool) :
    Event.browserClose ∈ (tryScript pre body oracle).events :=
  List.mem_append_right _ (List.mem_cons_self _ _)

/-- A handler-less script always reaches the Playwright scope exit. -/
theorem plainScript_stop (pre body : List Event) (oracle : Nat → Bool) :
    Event.playwrightStop ∈ (plainScript pre body oracle).events :=
  List.mem_append_right _ (List.mem_cons_self _ _)

/-- The `finally` of `reproduce_delay.py` closes the browser on every path. -/
theorem reproduce_delay_close (oracle : Nat → Bool) :
    Event.browserClose ∈ (reproduce_delay_main oracle).events :=
  List.mem_append_right _ (List.mem_cons_self _ _)

/-- C1: for every verification script and every execution path (success or
failure of any navigation, wait, or action), the browser session acquired at
the start of the run is closed before the process exits: the five scripts
with a `finally` close the browser explicitly on every path, and in every
script the `with sync_playwright()` scope exit stops the driver, closing
every browser launched from it. -/
theorem claim_C1 :
    (∀ (id : ScriptId) (oracle : Nat → Bool), sessionClosed (mainOf id oracle)) ∧
    (∀ oracle : Nat → Bool, Event.browserClose ∈ (verify_app_main oracle).events) ∧
    (∀ oracle : Nat → Bool, Event.browserClose ∈ (verify_load_main oracle).events) ∧
    (∀ oracle : Nat → Bool, Event.browserClose ∈ (verify_redesign_main oracle).events) ∧
    (∀ oracle : Nat → Bool, Event.browserClose ∈ (verify_styles_main oracle).events) ∧
    (∀ oracle : Nat → Bool, Event.browserClose ∈ (reproduce_delay_main oracle).events) := by
  refine ⟨?_, ?_, ?_, ?_, ?_, ?_⟩
  · intro id oracle
    cases id with
    | verifyApp => exact Or.inl (tryScript_close _ _ _)
    | verifyChanges => exact Or.inr (plainScript_stop _ _ _)
    | verifyFinal => exact Or.inr (plainScript_stop _ _ _)
    | verifyLoad => exact Or.inl (tryScript_close _ _ _)
    | verifyMaximize => exact Or.inr (plainScript_stop _ _ _)
    | verifyRedesign => exact Or.inl (tryScript_close _ _ _)
    | verifyStyles => exact Or.inl (tryScript_close _ _ _)
    | verifySubtitleModern => exact Or.inr (plainScript_stop _ _ _)
    | reproduceDelay => exact Or.inl (reproduce_delay_close _)
  · exact fun oracle => tryScript_close _ _ _
  · exact fun oracle => tryScript_close _ _ _
  · exact fun oracle => tryScript_close _ _ _
  · exact fun oracle => tryScript_close _ _ _
  · exact fun oracle => reproduce_delay_close _

/-- C2 counterexample: `verify_subtitle_and_ui` in
`verify_subtitle_modern.py` has no exception handler, so when its first
browser call (the navigation) raises, the exception propagates out of the
script instead of being caught, printed and swallowed. -/
theorem claim_C2_counterexample :
    (verify_subtitle_modern_main allFalse).err =
      some (Event.goto "http://localhost:3000") := by decide

/-- C2 (amended): only `verify.py`, `verify_load.py`, `verify_redesign.py`,
`verify_styles.py` and `reproduce_delay.py` catch every error at the
outermost scope, print it and swallow it (no exception ever escapes them);
`verify_changes.py`, `verify_final.py`, `verify_subtitle_modern.py` and
`verify_maximize.py` install no handler, so an error during their steps
propagates out of the script, as the failing-navigation runs show. -/
theorem claim_C2_amended :
    (∀ oracle : Nat → Bool, (verify_app_main oracle).err = none) ∧
    (∀ oracle : Nat → Bool, (verify_load_main oracle).err = none) ∧
    (∀ oracle : Nat → Bool, (verify_redesign_main oracle).err = none) ∧
    (∀ oracle : Nat → Bool, (verify_styles_main oracle).err = none) ∧
    (∀ oracle : Nat → Bool, (reproduce_delay_main oracle).err = none) ∧
    (Event.printErr (Event.goto "http://localhost:4173")
       ∈ (verify_app_main allFalse).events) ∧
    ((verify_changes_main allFalse).err = some (Event.goto "http://localhost:3000")) ∧
    ((verify_final_main allFalse).err = some (Event.goto "http://localhost:3000")) ∧
    ((verify_subtitle_modern_main allFalse).err
       = some (Event.goto "http://localhost:3000")) ∧
    ((verify_maximize_main allFalse).err = some (Event.goto "http://localhost:3000")) := by
  refine ⟨fun _ => rfl, fun _ => rfl, fun _ => rfl, fun _ => rfl, fun _ => rfl,
    ?_, ?_, ?_, ?_, ?_⟩ <;> decide

/-- C3: in the negative wait of `reproduce_delay.py` (the Analyzing Image
check with timeout 500 ms), if the condition stays false throughout the
window the script takes the except branch, printing the bug-reproduced
success line and capturing the screenshot; if the condition becomes true
before the timeout the script takes the try branch, printing the inverted
(unexpected) PASS line. -/
theorem claim_C3 (visibleAt : Nat → Bool) :
    ((∀ t, t ≤ 500 → visibleAt t = false) →
      analyzingCheckEvents (expectVisibleResult visibleAt 500) =
        [Event.printMsg bugMsg, Event.screenshot "verification/bug_reproduced.png"]) ∧
    ((∃ t, t < 500 ∧ visibleAt t = true) →
      analyzingCheckEvents (expectVisibleResult visibleAt 500) =
        [Event.printMsg passMsg]) := by
  constructor
  · intro h
    have hany : (List.range (500 + 1)).any visibleAt = false := by
      rw [List.any_eq_false]
      intro x hx
      have hx' : x ≤ 500 := Nat.lt_succ_iff.mp (List.mem_range.mp hx)
      simp [h x hx']
    simp [expectVisibleResult, hany, analyzingCheckEvents]
  · rintro ⟨t, ht, hv⟩
    have hany : (List.range (500 + 1)).any visibleAt = true := by
      rw [List.any_eq_true]
      exact ⟨t, List.mem_range.mpr (Nat.lt_succ_of_lt ht), hv⟩
    simp [expectVisibleResult, hany, analyzingCheckEvents]

/-- Witness for C3, at a timeline that is never visible and at one that is
visible from the start. -/
theorem claim_C3_witness :
    analyzingCheckEvents (expectVisibleResult (fun _ => false) 500) =
      [Event.printMsg bugMsg, Event.screenshot "verification/bug_reproduced.png"] ∧
    analyzingCheckEvents (expectVisibleResult (fun _ => true) 500) =
      [Event.printMsg passMsg] :=
  ⟨(claim_C3 (fun _ => false)).1 (fun _ _ => rfl),
   (claim_C3 (fun _ => true)).2 ⟨0, by decide, rfl⟩⟩

/-- C4: the handler of the Analyzing Image check is a bare `except:`, so
the bug-reproduced branch (SUCCESS print plus screenshot) is taken for
every exception the visibility expectation can raise, the assertion timeout
and any other error (crashed page, closed browser, ...) alike. -/
theorem claim_C4 (msg : String) :
    analyzingCheckEvents (ExpectResult.otherExn msg) =
      [Event.printMsg bugMsg, Event.screenshot "verification/bug_reproduced.png"] ∧
    analyzingCheckEvents ExpectResult.timedOut =
      [Event.printMsg bugMsg, Event.screenshot "verification/bug_reproduced.png"] :=
  ⟨rfl, rfl⟩

/-- C5 counterexample: on the all-success run of `verify_maximize.py`, the
script clicks the Minimize control and evaluates one more visibility wait
after the screenshot has been captured, so it is not true that no action is
applied and no wait condition is evaluated after the screenshot. -/
theorem claim_C5_counterexample :
    opsAfterScreenshot (verify_maximize_main allTrue).events =
      [Event.click (Locator.byLabel "Minimize"),
       Event.expectNotVisible (Locator.byLabel "Minimize")] := by decide

/-- C5 (amended): every script navigates to its target URL before any wait,
action or screenshot, and its waits and actions then follow in the fixed
source order of the script, in some scripts interleaved (an action before a
wait); in every script except `verify_maximize.py` no wait or action occurs
after the screenshot, while `verify_maximize.py` performs exactly one click
(Minimize) and one visibility wait after its screenshot. -/
theorem claim_C5_amended :
    (navFirst (verify_app_main allTrue).events = true) ∧
    (navFirst (verify_changes_main allTrue).events = true) ∧
    (navFirst (verify_final_main allTrue).events = true) ∧
    (navFirst (verify_load_main allTrue).events = true) ∧
    (navFirst (verify_maximize_main allTrue).events = true) ∧
    (navFirst (verify_redesign_main allTrue).events = true) ∧
    (navFirst (verify_styles_main allTrue).events = true) ∧
    (navFirst (verify_subtitle_modern_main allTrue).events = true) ∧
    (navFirst (reproduce_delay_main allTrue).events = true) ∧
    (navFirst (reproduce_delay_main bugOracle).events = true) ∧
    (opsAfterScreenshot (verify_app_main allTrue).events = []) ∧
    (opsAfterScreenshot (verify_changes_main allTrue).events = []) ∧
    (opsAfterScreenshot (verify_final_main allTrue).events = []) ∧
    (opsAfterScreenshot (verify_load_main allTrue).events = []) ∧
    (opsAfterScreenshot (verify_redesign_main allTrue).events = []) ∧
    (opsAfterScreenshot (verify_styles_main allTrue).events = []) ∧
    (opsAfterScreenshot (verify_subtitle_modern_main allTrue).events = []) ∧
    (opsAfterScreenshot (reproduce_delay_main bugOracle).events = []) ∧
    (opsAfterScreenshot (verify_maximize_main allTrue).events =
      [Event.click (Locator.byLabel "Minimize"),
       Event.expectNotVisible (Locator.byLabel "Minimize")]) := by decide

/-- C6: the synthetic upload payload of `reproduce_delay.py` is the fixed
1x1 PNG byte sequence; its bytes 0 through 7 equal the PNG signature, so it
passes any magic-byte validation of exactly those eight bytes, and its
IHDR width and height fields (bytes 16-19 and 20-23) both encode 1.  The
script writes exactly these bytes to `test_image.png`. -/
theorem claim_C6 :
    test_image_png.take 8 = pngSignatureSpec ∧
    (test_image_png.drop 16).take 4 = [0, 0, 0, 1] ∧
    (test_image_png.drop 20).take 4 = [0, 0, 0, 1] ∧
    Event.writeFile "test_image.png" test_image_png
      ∈ (reproduce_delay_main allTrue).events := by decide

/-- C7: on the all-success run of `verify_maximize.py`, the script asserts
the Minimize control visible exactly once and not-visible exactly once,
with the visibility assertion after the Maximize click, the Minimize click
after that, and the not-visible assertion last. -/
theorem claim_C7 :
    ((verify_maximize_main allTrue).events.count
        (Event.expectVisible (Locator.byLabel "Minimize")) = 1) ∧
    ((verify_maximize_main allTrue).events.count
        (Event.expectNotVisible (Locator.byLabel "Minimize")) = 1) ∧
    ((verify_maximize_main allTrue).events.count
        (Event.click (Locator.byLabel "Maximize")) = 1) ∧
    ((verify_maximize_main allTrue).events.count
        (Event.click (Locator.byLabel "Minimize")) = 1) ∧
    ((verify_maximize_main allTrue).events.indexOf
        (Event.click (Locator.byLabel "Maximize"))
      < (verify_maximize_main allTrue).events.indexOf
        (Event.expectVisible (Locator.byLabel "Minimize"))) ∧
    ((verify_maximize_main allTrue).events.indexOf
        (Event.expectVisible (Locator.byLabel "Minimize"))
      < (verify_maximize_main allTrue).events.indexOf
        (Event.click (Locator.byLabel "Minimize"))) ∧
    ((verify_maximize_main allTrue).events.indexOf
        (Event.click (Locator.byLabel "Minimize"))
      < (verify_maximize_main allTrue).events.indexOf
        (Event.expectNotVisible (Locator.byLabel "Minimize"))) := by decide

/-- Events never delete files. -/
theorem mem_applyEvent {fs : List String} {e : Event} {p : String}
    (h : p ∈ fs) : p ∈ applyEvent fs e := by
  cases hw : writesOf e with
  | none => simpa [applyEvent, hw] using h
  | some q =>
      by_cases hq : q ∈ fs
      · simpa [applyEvent, hw, hq] using h
      · simp only [applyEvent, hw, hq, if_false]
        exact List.mem_append_left _ h

/-- Traces never delete files. -/
theorem mem_applyTrace {tr : List Event} :
    ∀ {fs : List String} {p : String}, p ∈ fs → p ∈ applyTrace fs tr := by
  induction tr with
  | nil => intro fs p h; exact h
  | cons e rest ih =>
      intro fs p h
      exact ih (mem_applyEvent h)

/-- Every path a trace writes is on disk afterwards. -/
theorem writes_mem_applyTrace {tr : List Event} :
    ∀ {fs : List String} {e : Event} {p : String},
      e ∈ tr → writesOf e = some p → p ∈ applyTrace fs tr := by
  induction tr with
  | nil => intro fs e p h _; exact absurd h (List.not_mem_nil e)
  | cons s rest ih =>
      intro fs e p h hw
      rcases List.mem_cons.mp h with h | h
      · subst h
        show p ∈ applyTrace (applyEvent fs e) rest
        apply mem_applyTrace
        by_cases hp : p ∈ fs
        · simp [applyEvent, hw, hp]
        · simp [applyEvent, hw, hp]
      · exact ih h hw

/-- A trace that only writes paths already on disk leaves the disk
unchanged. -/
theorem applyTrace_eq_of_mem {tr : List Event} :
    ∀ {fs : List String},
      (∀ e ∈ tr, ∀ p, writesOf e = some p → p ∈ fs) → applyTrace fs tr = fs := by
  induction tr with
  | nil => intro fs _; rfl
  | cons s rest ih =>
      intro fs h
      have hs : applyEvent fs s = fs := by
        cases hw : writesOf s with
        | none => simp [applyEvent, hw]
        | some p => simp [applyEvent, hw, h s (List.mem_cons_self s rest) p hw]
      show applyTrace (applyEvent fs s) rest = fs
      rw [hs]
      exact ih (fun e he p hw => h e (List.mem_cons_of_mem s he) p hw)

/-- Replaying a trace over the disk state it produced changes nothing. -/
theorem applyTrace_idem (fs : List String) (tr : List Event) :
    applyTrace (applyTrace fs tr) tr = applyTrace fs tr :=
  applyTrace_eq_of_mem (fun _ he _ hw => writes_mem_applyTrace he hw)

/-- C8: every screenshot or file write of a script targets a path that is a
fixed constant of that script and overwrites any existing file there, so
running a script n times (n at least 1) leaves exactly the same set of
artifact files on disk as running it once; files never accumulate. -/
theorem claim_C8 :
    ∀ (id : ScriptId) (oracle : Nat → Bool) (n : Nat), 1 ≤ n →
      filesAfterRuns id oracle n = filesAfterRuns id oracle 1 := by
  intro id oracle n h
  induction n with
  | zero => exact absurd h (by decide)
  | succ m ih =>
      cases Nat.eq_zero_or_pos m with
      | inl h0 => subst h0; rfl
      | inr hm =>
          show applyTrace (filesAfterRuns id oracle m) (mainOf id oracle).events
            = filesAfterRuns id oracle 1
          rw [ih hm]
          show applyTrace (applyTrace [] (mainOf id oracle).events)
            (mainOf id oracle).events = applyTrace [] (mainOf id oracle).events
          exact applyTrace_idem [] (mainOf id oracle).events

/-- Witness for C8: three all-success runs of `verify.py` leave the same
single artifact as one run. -/
theorem claim_C8_witness :
    filesAfterRuns ScriptId.verifyApp allTrue 3
        = filesAfterRuns ScriptId.verifyApp allTrue 1 ∧
    filesAfterRuns ScriptId.verifyApp allTrue 1
        = ["verification/app_screenshot.png"] :=
  ⟨claim_C8 ScriptId.verifyApp allTrue 3 (by decide), by decide⟩

/-- C9: two runs of the same script that differ only in the command line or
in the environment perform exactly the same sequence of browser operations
and file writes, and end with the same escaping error, if any. -/
theorem claim_C9 :
    ∀ (id : ScriptId) (a1 a2 : List String)
      (e1 e2 : String → Option String) (oracle : Nat → Bool),
      runScriptOS id a1 e1 oracle = runScriptOS id a2 e2 oracle :=
  fun _ _ _ _ _ _ => rfl

/-- C10: every wait any script ever performs, on any path, is a blocking
wait with a bounded timeout, and every explicitly specified timeout value
lies in the range 500 ms to 2000 ms inclusive. -/
theorem claim_C10 :
    ∀ (id : ScriptId) (oracle : Nat → Bool) (e : Event),
      e ∈ (mainOf id oracle).events → waitOk e = true := by
  intro id oracle e h
  have hprint : ∀ f : Event, waitOk (Event.printErr f) = true := fun _ => rfl
  cases id with
  | verifyApp =>
      replace h : e ∈ (tryScript [Event.launch, Event.newPage none]
        verify_app_body oracle).events := h
      rcases mem_tryScript h with h | h | ⟨f, rfl⟩ | rfl | rfl
      · exact (by decide :
          ∀ x ∈ ([Event.launch, Event.newPage none] : List Event), waitOk x = true) e h
      · exact (by decide : ∀ x ∈ verify_app_body, waitOk x = true) e h
      · exact hprint f
      · decide
      · decide
  | verifyChanges =>
      replace h : e ∈ (plainScript [Event.launch, Event.newPage none]
        verify_changes_body oracle).events := h
      rcases mem_plainScript h with h | h | rfl
      · exact (by decide :
          ∀ x ∈ ([Event.launch, Event.newPage none] : List Event), waitOk x = true) e h
      · exact (by decide : ∀ x ∈ verify_changes_body, waitOk x = true) e h
      · decide
  | verifyFinal =>
      replace h : e ∈ (plainScript [Event.launch, Event.newPage none]
        verify_final_body oracle).events := h
      rcases mem_plainScript h with h | h | rfl
      · exact (by decide :
          ∀ x ∈ ([Event.launch, Event.newPage none] : List Event), waitOk x = true) e h
      · exact (by decide : ∀ x ∈ verify_final_body, waitOk x = true) e h
      · decide
  | verifyLoad =>
      replace h : e ∈ (tryScript [Event.launch, Event.newPage none]
        verify_load_body oracle).events := h
      rcases mem_tryScript h with h | h | ⟨f, rfl⟩ | rfl | rfl
      · exact (by decide :
          ∀ x ∈ ([Event.launch, Event.newPage none] : List Event), waitOk x = true) e h
      · exact (by decide : ∀ x ∈ verify_load_body, waitOk x = true) e h
      · exact hprint f
      · decide
      · decide
  | verifyMaximize =>
      replace h : e ∈ (plainScript [Event.launch, Event.newContext, Event.newPage none]
        verify_maximize_body oracle).events := h
      rcases mem_plainScript h with h | h | rfl
      · exact (by decide :
          ∀ x ∈ ([Event.launch, Event.newContext, Event.newPage none] : List Event),
            waitOk x = true) e h
      · exact (by decide : ∀ x ∈ verify_maximize_body, waitOk x = true) e h
      · decide
  | verifyRedesign =>
      replace h : e ∈ (tryScript [Event.launch, Event.newPage (some (1280, 800))]
        verify_redesign_body oracle).events := h
      rcases mem_tryScript h with h | h | ⟨f, rfl⟩ | rfl | rfl
      · exact (by decide :
          ∀ x ∈ ([Event.launch, Event.newPage (some (1280, 800))] : List Event),
            waitOk x = true) e h
      · exact (by decide : ∀ x ∈ verify_redesign_body, waitOk x = true) e h
      · exact hprint f
      · decide
      · decide
  | verifyStyles =>
      replace h : e ∈ (tryScript [Event.launch, Event.newPage none]
        verify_styles_body oracle).events := h
      rcases mem_tryScript h with h | h | ⟨f, rfl⟩ | rfl | rfl
      · exact (by decide :
          ∀ x ∈ ([Event.launch, Event.newPage none] : List Event), waitOk x = true) e h
      · exact (by decide : ∀ x ∈ verify_styles_body, waitOk x = true) e h
      · exact hprint f
      · decide
      · decide
  | verifySubtitleModern =>
      replace h : e ∈ (plainScript [Event.launch, Event.newPage none]
        verify_subtitle_modern_body oracle).events := h
      rcases mem_plainScript h with h | h | rfl
      · exact (by decide :
          ∀ x ∈ ([Event.launch, Event.newPage none] : List Event), waitOk x = true) e h
      · exact (by decide : ∀ x ∈ verify_subtitle_modern_body, waitOk x = true) e h
      · decide
  | reproduceDelay =>
      rcases mem_reproduce_delay h with h | h | rfl | h | h | ⟨f, rfl⟩ | rfl | rfl
      · exact (by decide :
          ∀ x ∈ ([Event.launch, Event.newPage none] : List Event), waitOk x = true) e h
      · exact (by decide : ∀ x ∈ scanningPreSteps, waitOk x = true) e h
      · decide
      · exact (by decide :
          ∀ x ∈ analyzingCheckEvents ExpectResult.ok, waitOk x = true) e h
      · exact (by decide :
          ∀ x ∈ analyzingCheckEvents ExpectResult.timedOut, waitOk x = true) e h
      · exact hprint f
      · decide
      · decide

/-- Witness for C10, at the explicit 2000 ms pause of `verify_final.py`. -/
theorem claim_C10_witness : waitOk (Event.waitForTimeout 2000) = true :=
  claim_C10 ScriptId.verifyFinal allTrue (Event.waitForTimeout 2000) (by decide)
